import Mathlib

/-
Verification of the deadlock-protracker ingestion pipeline.

Shallow embedding of:
  - src/backend/apps/tracker/ingestion/jobs.py   (the three ETL jobs and helpers)
  - src/backend/apps/tracker/ingestion/client.py (the retrying HTTP client)
  - the uniqueness constraints of src/backend/apps/tracker/models.py

Modelling conventions:
  - Python ints are Lean Int (database BigIntegerField values included).
  - Aware UTC datetimes are modelled by their epoch seconds (Int);
    a timedelta is its length in seconds, so timedelta(days=d) = 86400*d.
  - A database table is a List of row structures, in insertion order; a
    Django queryset delete/filter is a List.filter, bulk_create with
    ignore_conflicts inserts exactly the rows whose uniqueness key is not
    yet present (see bulk_create_ignore).
  - Python set iteration order is unspecified; it is modelled as
    first-insertion order (this only affects which single account the
    mis-indented counting block of ingest_esports_accounts touches).
  - The upstream HTTP client is an oracle function passed to each job.
-/

-- ------------------------------------------------------------
-- Rows (models.py)
-- ------------------------------------------------------------

/-- Account (models.py lines 70-77): account_id PK, username, is_notable
(default False). -/
structure AccountRow where
  account_id : Int
  username : String
  is_notable : Bool
deriving Repr, DecidableEq

/-- Match (models.py lines 90-96): date and duration modelled as epoch
seconds / seconds. -/
structure MatchRow where
  match_id : Int
  date : Int
  duration : Int
deriving Repr, DecidableEq

/-- PlayerPerformance (models.py lines 104-135), unique on
(account_id, match_id). -/
structure PerfRow where
  account_id : Int
  match_id : Int
  kills : Int
  deaths : Int
  assists : Int
  networth : Int
  team : Int
  is_win : Bool
deriving Repr, DecidableEq

/-- PlayerAbility (models.py lines 137-151), unique on
(account_id, match_id, ability_id, game_time). -/
structure PlayerAbilityRow where
  account_id : Int
  match_id : Int
  ability_id : Int
  game_time : Int
deriving Repr, DecidableEq

/-- PlayerItem (models.py lines 159-182), unique on
(account_id, match_id, item_id, game_time). -/
structure PlayerItemRow where
  account_id : Int
  match_id : Int
  item_id : Int
  game_time : Int
  sold_time : Int
  is_upgrade : Bool
  imbued_ability_id : Option Int
deriving Repr, DecidableEq

/-- The uniqueness key of PlayerItem (constraint uniq_playeritem_purchase,
models.py lines 175-182). -/
def item_key (r : PlayerItemRow) : Int × Int × Int × Int :=
  (r.account_id, r.match_id, r.item_id, r.game_time)

/-- The uniqueness key of PlayerAbility (constraint uniq_playerability_event,
models.py lines 144-151). -/
def ability_key (r : PlayerAbilityRow) : Int × Int × Int × Int :=
  (r.account_id, r.match_id, r.ability_id, r.game_time)

-- ------------------------------------------------------------
-- Generic helpers (jobs.py lines 61-103)
-- ------------------------------------------------------------

/-- IngestResult dataclass (jobs.py lines 61-64). -/
structure IngestResult where
  created : Nat
  updated : Nat
deriving Repr, DecidableEq

/-- The loop of _dedupe_by_key (jobs.py lines 76-83): `seen` is the set of
keys already kept, rows are scanned in order, a row whose key was seen is
dropped. -/
def dedupe_go {T K : Type} [DecidableEq K] (key_fn : T → K) :
    List K → List T → List T
  | _, [] => []
  | seen, r :: rs =>
      if key_fn r ∈ seen then dedupe_go key_fn seen rs
      else r :: dedupe_go key_fn (key_fn r :: seen) rs

/-- _dedupe_by_key (jobs.py lines 72-84): remove duplicates while preserving
order, first occurrence wins. -/
def dedupe_by_key {T K : Type} [DecidableEq K] (rows : List T)
    (key_fn : T → K) : List T :=
  dedupe_go key_fn [] rows

/-- Spec-side characterisation of the dedup (spec §4.6 step 6: "first
occurrence wins, order-preserving"): keep the head, drop every later row
with the head's key, recurse. Written from the spec's words, to be compared
with dedupe_by_key, which is translated from the code. -/
def keep_first_by_key {T K : Type} [DecidableEq K] (key_fn : T → K) :
    List T → List T
  | [] => []
  | r :: rs =>
      r :: keep_first_by_key key_fn (rs.filter (fun s => decide (key_fn s ≠ key_fn r)))
termination_by l => l.length
decreasing_by
  simp only [List.length_cons]
  exact Nat.lt_succ_of_le (List.length_filter_le _ rs)

theorem dedupe_go_sublist {T K : Type} [DecidableEq K] (key_fn : T → K) :
    ∀ (rows : List T) (seen : List K),
      List.Sublist (dedupe_go key_fn seen rows) rows := by
  intro rows
  induction rows with
  | nil => intro seen; simp [dedupe_go]
  | cons r rs ih =>
      intro seen
      simp only [dedupe_go]
      by_cases h : key_fn r ∈ seen
      · rw [if_pos h]
        exact (ih seen).cons r
      · rw [if_neg h]
        exact (ih (key_fn r :: seen)).cons₂ r

theorem dedupe_go_eq_keep_first {T K : Type} [DecidableEq K] (key_fn : T → K) :
    ∀ (rows : List T) (seen : List K),
      dedupe_go key_fn seen rows
        = keep_first_by_key key_fn (rows.filter (fun r => decide (key_fn r ∉ seen))) := by
  intro rows
  induction rows with
  | nil => intro seen; simp [dedupe_go, keep_first_by_key]
  | cons r rs ih =>
      intro seen
      simp only [dedupe_go, List.filter_cons]
      by_cases h : key_fn r ∈ seen
      · rw [if_pos h]
        have hd : decide (key_fn r ∉ seen) = false := by simp [h]
        rw [hd]
        simp only [Bool.false_eq_true, if_false]
        exact ih seen
      · rw [if_neg h]
        have hd : decide (key_fn r ∉ seen) = true := by simp [h]
        rw [hd]
        simp only [if_true]
        rw [keep_first_by_key, ih (key_fn r :: seen)]
        congr 1
        rw [List.filter_filter]
        congr 1
        apply List.filter_congr
        intro s _
        by_cases h1 : key_fn s = key_fn r <;> by_cases h2 : key_fn s ∈ seen <;>
          simp [h1, h2]

/-- C8: the in-memory dedup keeps, per (4-tuple) key, exactly the first
occurrence in input order, and the survivors keep their relative order
(they form a sublist of the input). -/
theorem dedupe_keeps_first_occurrence_in_order {T K : Type} [DecidableEq K]
    (key_fn : T → K) (rows : List T) :
    dedupe_by_key rows key_fn = keep_first_by_key key_fn rows ∧
      List.Sublist (dedupe_by_key rows key_fn) rows := by
  constructor
  · have h := dedupe_go_eq_keep_first key_fn rows []
    simpa [dedupe_by_key] using h
  · exact dedupe_go_sublist key_fn rows []

-- ------------------------------------------------------------
-- Account table operations (jobs.py lines 86-103, 131-144, 186-191)
-- ------------------------------------------------------------

/-- Primary-key lookup in the Account table. -/
def findAccount (db : List AccountRow) (aid : Int) : Option AccountRow :=
  db.find? (fun r => r.account_id == aid)

/-- The is_notable flag of the stored Account row, if any. -/
def account_is_notable (db : List AccountRow) (aid : Int) : Option Bool :=
  (findAccount db aid).map (fun r => r.is_notable)

/-- _ensure_accounts_exist (jobs.py lines 86-103): bulk-create the missing
Account rows with a placeholder username and is_notable=False; existing
rows are left untouched. The Python argument is a set; it is modelled as a
list deduplicated in first-occurrence order. -/
def ensure_accounts_exist (db : List AccountRow) (account_ids : List Int) :
    List AccountRow :=
  let missing := (dedupe_by_key account_ids (fun a => a)).filter
    (fun a => (findAccount db a).isNone)
  db ++ missing.map (fun a => ⟨a, "account-" ++ toString a, false⟩)

/-- Account.objects.get_or_create with defaults
{username: "account-<id>", is_notable: True} (jobs.py lines 133-136).
Returns (row, was_created, table). -/
def account_get_or_create_notable (db : List AccountRow) (aid : Int) :
    AccountRow × Bool × List AccountRow :=
  match findAccount db aid with
  | some r => (r, false, db)
  | none =>
      let r : AccountRow := ⟨aid, "account-" ++ toString aid, true⟩
      (r, true, db ++ [r])

/-- acc.save(update_fields=["is_notable"]) after acc.is_notable = True
(jobs.py lines 142-144). -/
def promote_notable (db : List AccountRow) (aid : Int) : List AccountRow :=
  db.map (fun r => if r.account_id == aid then { r with is_notable := true } else r)

/-- Account.objects.update_or_create with defaults {username: "account-<id>"}
(jobs.py lines 188-191): is_notable is not among the written defaults, so an
existing row keeps its flag and a fresh row gets the model default False
(models.py line 77). -/
def account_update_or_create_username (db : List AccountRow) (aid : Int) :
    List AccountRow :=
  match findAccount db aid with
  | some _ =>
      db.map (fun r =>
        if r.account_id == aid then { r with username := "account-" ++ toString aid }
        else r)
  | none => db ++ [⟨aid, "account-" ++ toString aid, false⟩]

-- ------------------------------------------------------------
-- Esports Account Discovery job (jobs.py lines 108-146)
-- ------------------------------------------------------------

/-- One entry of the /v1/esports/matches payload (jobs.py lines 24-32). -/
structure EsportsMatch where
  match_id : Int
  status : String
deriving Repr, DecidableEq

/-- _extract_match_ids (jobs.py lines 24-32): the ids of the entries whose
status is "Completed". -/
def extract_match_ids (payload : List EsportsMatch) : List Int :=
  (payload.filter (fun m => m.status == "Completed")).map (fun m => m.match_id)

/-- The account-id collection phase of ingest_esports_accounts
(jobs.py lines 115-124): completed match ids, optionally truncated to
max_matches, then the union (a Python set, modelled in first-insertion
order) of _extract_account_ids over each match's metadata. The metadata
oracle maps a match id to the account_id fields of its players. -/
def collected_esports_account_ids (payload : List EsportsMatch)
    (metadata : Int → List Int) (max_matches : Option Nat) : List Int :=
  let match_ids := extract_match_ids payload
  let match_ids := match max_matches with
    | some n => match_ids.take n
    | none => match_ids
  dedupe_by_key (match_ids.flatMap metadata) (fun a => a)

/-- The per-account loop of ingest_esports_accounts (jobs.py lines 131-136).
Only the get_or_create call is inside the for loop; the state also carries
the (acc, was_created) pair of the most recent iteration, because the code
below the loop reads those loop variables. -/
def discovery_loop (db : List AccountRow) (ids : List Int) :
    List AccountRow × Option (AccountRow × Bool) :=
  ids.foldl (fun st aid =>
    let r := account_get_or_create_notable st.1 aid
    (r.2.2, some (r.1, r.2.1))) (db, none)

/-- The message of the Python error raised when the counting block reads
`was_created` after a loop that never ran. -/
def unbound_local_was_created : String :=
  "UnboundLocalError: local variable referenced before assignment"

/-- ingest_esports_accounts (jobs.py lines 108-146). The counting and
promotion block (lines 137-144) is indented at the level of the `for`
statement, i.e. OUTSIDE the loop body: it runs once, after the loop, on the
last iteration's `acc`/`was_created`. When the collected set is empty the
loop never binds them and Python raises UnboundLocalError inside the
transaction.atomic() block, which rolls back, so the error case carries no
table. -/
def ingest_esports_accounts (payload : List EsportsMatch)
    (metadata : Int → List Int) (max_matches : Option Nat)
    (db : List AccountRow) : Except String (IngestResult × List AccountRow) :=
  match discovery_loop db (collected_esports_account_ids payload metadata max_matches) with
  | (_, none) => Except.error unbound_local_was_created
  | (db2, some (acc, was_created)) =>
      if was_created then Except.ok (⟨1, 0⟩, db2)
      else
        Except.ok (⟨0, 1⟩,
          if acc.is_notable then db2 else promote_notable db2 acc.account_id)

-- ------------------------------------------------------------
-- Notability lemmas and discovery-job theorems (C1, C4, C10)
-- ------------------------------------------------------------

theorem notable_append (db l : List AccountRow) (a : Int)
    (h : account_is_notable db a = some true) :
    account_is_notable (db ++ l) a = some true := by
  unfold account_is_notable at h ⊢
  cases hf : findAccount db a with
  | none => rw [hf] at h; exact absurd h (by simp)
  | some r =>
      rw [hf] at h
      have h2 : findAccount (db ++ l) a = some r := by
        unfold findAccount at hf ⊢
        rw [List.find?_append, hf]
        rfl
      rw [h2]
      exact h

theorem notable_map_mono (db : List AccountRow) (a : Int)
    (f : AccountRow → AccountRow)
    (hid : ∀ r, (f r).account_id = r.account_id)
    (hn : ∀ r, r.is_notable = true → (f r).is_notable = true)
    (h : account_is_notable db a = some true) :
    account_is_notable (db.map f) a = some true := by
  induction db with
  | nil => simp [account_is_notable, findAccount] at h
  | cons x xs ih =>
      unfold account_is_notable findAccount at h ⊢
      rw [List.map_cons]
      by_cases hx : (x.account_id == a) = true
      · have hfx : ((f x).account_id == a) = true := by rw [hid]; exact hx
        have e1 : (x :: xs).find? (fun r => r.account_id == a) = some x :=
          List.find?_cons_of_pos _ hx
        have e2 : (f x :: xs.map f).find? (fun r => r.account_id == a) = some (f x) :=
          List.find?_cons_of_pos _ hfx
        rw [e1] at h
        rw [e2]
        simp only [Option.map_some'] at h ⊢
        exact congrArg some (hn x (Option.some.inj h))
      · have hfx : ¬ ((f x).account_id == a) = true := by rw [hid]; exact hx
        have e1 : (x :: xs).find? (fun r => r.account_id == a)
            = xs.find? (fun r => r.account_id == a) :=
          List.find?_cons_of_neg _ hx
        have e2 : (f x :: xs.map f).find? (fun r => r.account_id == a)
            = (xs.map f).find? (fun r => r.account_id == a) :=
          List.find?_cons_of_neg _ hfx
        rw [e1] at h
        rw [e2]
        exact ih h

theorem notable_get_or_create (db : List AccountRow) (aid a : Int)
    (h : account_is_notable db a = some true) :
    account_is_notable (account_get_or_create_notable db aid).2.2 a = some true := by
  unfold account_get_or_create_notable
  cases hf : findAccount db aid with
  | some r => exact h
  | none => exact notable_append _ _ _ h

theorem notable_promote (db : List AccountRow) (x a : Int)
    (h : account_is_notable db a = some true) :
    account_is_notable (promote_notable db x) a = some true := by
  refine notable_map_mono db a _ ?_ ?_ h
  · intro r
    by_cases hr : (r.account_id == x) = true <;> simp [promote_notable, hr]
  · intro r hrn
    by_cases hr : (r.account_id == x) = true <;> simp [promote_notable, hr, hrn]

theorem notable_discovery_foldl (ids : List Int) (a : Int) :
    ∀ (st : List AccountRow × Option (AccountRow × Bool)),
      account_is_notable st.1 a = some true →
      account_is_notable ((ids.foldl (fun st aid =>
        let r := account_get_or_create_notable st.1 aid
        (r.2.2, some (r.1, r.2.1))) st).1) a = some true := by
  induction ids with
  | nil => intro st h; simpa using h
  | cons i is ih =>
      intro st h
      rw [List.foldl_cons]
      exact ih _ (notable_get_or_create _ _ _ h)

/-- C4: no ingestion operation demotes is_notable from true to false:
_ensure_accounts_exist leaves existing rows untouched, the Match History
job's account upsert writes only the username, and the Discovery job only
ever creates notable rows or promotes to notable. -/
theorem is_notable_never_demoted (db : List AccountRow) (a : Int)
    (h : account_is_notable db a = some true) :
    (∀ ids, account_is_notable (ensure_accounts_exist db ids) a = some true) ∧
    (∀ aid, account_is_notable (account_update_or_create_username db aid) a = some true) ∧
    (∀ payload metadata max_matches res db2,
        ingest_esports_accounts payload metadata max_matches db
          = Except.ok (res, db2) →
        account_is_notable db2 a = some true) := by
  refine ⟨?_, ?_, ?_⟩
  · intro ids
    exact notable_append _ _ _ h
  · intro aid
    unfold account_update_or_create_username
    cases hf : findAccount db aid with
    | some r =>
        refine notable_map_mono db a _ ?_ ?_ h
        · intro s
          by_cases hs : (s.account_id == aid) = true <;> simp [hs]
        · intro s hsn
          by_cases hs : (s.account_id == aid) = true <;> simp [hs, hsn]
    | none =>
        exact notable_append _ _ _ h
  · intro payload metadata maxm res db2 hok
    have hloop :
        account_is_notable (discovery_loop db
          (collected_esports_account_ids payload metadata maxm)).1 a = some true :=
      notable_discovery_foldl _ _ _ h
    unfold ingest_esports_accounts at hok
    split at hok
    · exact absurd hok (by simp)
    · rename_i db2' acc wc heq
      rw [heq] at hloop
      have hloop2 : account_is_notable db2' a = some true := hloop
      by_cases hwc : wc = true
      · rw [if_pos hwc] at hok
        have h3 : db2' = db2 := congrArg Prod.snd (Except.ok.inj hok)
        exact h3 ▸ hloop2
      · rw [if_neg hwc] at hok
        have h3 : (if acc.is_notable then db2' else promote_notable db2' acc.account_id)
            = db2 := congrArg Prod.snd (Except.ok.inj hok)
        by_cases hn : acc.is_notable = true
        · rw [if_pos hn] at h3
          exact h3 ▸ hloop2
        · rw [if_neg hn] at h3
          exact h3 ▸ notable_promote _ _ _ hloop2

theorem is_notable_never_demoted_witness :
    account_is_notable (ensure_accounts_exist [⟨5, "x", true⟩] [5, 6]) 5 = some true ∧
    account_is_notable (account_update_or_create_username [⟨5, "x", true⟩] 5) 5 = some true :=
  ⟨(is_notable_never_demoted [⟨5, "x", true⟩] 5 rfl).1 [5, 6],
   (is_notable_never_demoted [⟨5, "x", true⟩] 5 rfl).2.1 5⟩

/-- C10: when the Discovery job's collected account-id set is empty (no
Completed match, or max_matches = 0), the counting block after the loop
reads the never-assigned loop variable and the job raises
UnboundLocalError instead of returning created = 0, updated = 0. -/
theorem esports_discovery_empty_collection_errors
    (payload : List EsportsMatch) (metadata : Int → List Int)
    (max_matches : Option Nat) (db : List AccountRow)
    (h : collected_esports_account_ids payload metadata max_matches = []) :
    ingest_esports_accounts payload metadata max_matches db
      = Except.error unbound_local_was_created := by
  unfold ingest_esports_accounts
  rw [h]
  rfl

theorem esports_discovery_empty_collection_errors_witness :
    ingest_esports_accounts [⟨1, "Pending"⟩] (fun _ => [10, 11]) (some 0) []
      = Except.error unbound_local_was_created :=
  esports_discovery_empty_collection_errors [⟨1, "Pending"⟩] (fun _ => [10, 11])
    (some 0) [] rfl

/-- C1 (code bug): the counting/promotion block of ingest_esports_accounts
sits outside the per-account loop, so with two unique collected accounts
(10 and 11, both stored and non-notable) the job reports created+updated=1,
and promotes only account 11 (the last iterated), leaving 10 non-notable —
against the documented per-account get-or-create/promote/count intent. -/
theorem esports_discovery_counts_only_last_account :
    ingest_esports_accounts [⟨1, "Completed"⟩] (fun _ => [10, 11]) none
        [⟨10, "u", false⟩, ⟨11, "v", false⟩]
      = Except.ok (⟨0, 1⟩, [⟨10, "u", false⟩, ⟨11, "v", true⟩]) ∧
    (collected_esports_account_ids [⟨1, "Completed"⟩] (fun _ => [10, 11]) none).length
      = 2 :=
  ⟨rfl, rfl⟩

-- ------------------------------------------------------------
-- Match Events job (jobs.py lines 245-423)
-- ------------------------------------------------------------

/-- One entry of a player's "items" list in match metadata (jobs.py lines
255-272, §6 of the spec): every field may be absent; int(x or 0) treats an
absent value as 0. -/
structure RawItemEntry where
  item_id : Option Int
  game_time_s : Option Int
  sold_time_s : Option Int
  upgrade_id : Option Int
  imbued_ability_id : Option Int
deriving Repr, DecidableEq

/-- One player object of match metadata: its account_id (possibly absent)
and its item-event list. -/
structure PlayerMeta where
  account_id : Option Int
  items : List RawItemEntry
deriving Repr, DecidableEq

/-- A flat event record as produced by _extract_player_item_events. -/
structure ItemEvent where
  account_id : Option Int
  item_id : Option Int
  game_time_s : Option Int
  sold_time_s : Option Int
  upgrade_id : Option Int
  imbued_ability_id : Option Int
deriving Repr, DecidableEq

/-- _extract_player_item_events (jobs.py lines 255-272): walk each player's
item list and attach that player's account_id to every event. -/
def extract_player_item_events (players : List PlayerMeta) : List ItemEvent :=
  players.flatMap (fun p =>
    p.items.map (fun e =>
      ⟨p.account_id, e.item_id, e.game_time_s, e.sold_time_s, e.upgrade_id,
       e.imbued_ability_id⟩))

/-- The outcome of the per-event classification in the loop body of
ingest_match_events (jobs.py lines 331-373). -/
inductive EventOutcome
  | skipped
  | ability (row : PlayerAbilityRow)
  | item (row : PlayerItemRow)
  | unknown (item_id : Int)
deriving Repr, DecidableEq

/-- The loop body of ingest_match_events (jobs.py lines 331-373): an event
with a missing account_id or item_id is skipped; an item_id in the Ability
id set builds a PlayerAbility row; else one in the ShopItem id set builds a
PlayerItem row (is_upgrade from a nonzero upgrade_id, imbued FK kept only
when it is a known ability id); else the item_id is recorded as unknown. -/
def classify_event (ability_ids shop_ids : List Int) (mid : Int)
    (e : ItemEvent) : EventOutcome :=
  match e.account_id, e.item_id with
  | some aid, some iid =>
      let gt := e.game_time_s.getD 0
      if iid ∈ ability_ids then .ability ⟨aid, mid, iid, gt⟩
      else if iid ∈ shop_ids then
        let imb := e.imbued_ability_id.getD 0
        .item ⟨aid, mid, iid, gt, e.sold_time_s.getD 0,
               decide (e.upgrade_id.getD 0 ≠ 0),
               if imb ∈ ability_ids then some imb else none⟩
      else .unknown iid
  | _, _ => .skipped

/-- The batch-building loop of ingest_match_events (jobs.py lines 327-373):
items_to_create and abilities_to_create in append order, and unknown_ids as
a set (modelled in first-insertion order). -/
def build_batches (ability_ids shop_ids : List Int) (mid : Int)
    (events : List ItemEvent) :
    List PlayerItemRow × List PlayerAbilityRow × List Int :=
  events.foldl (fun st e =>
    match classify_event ability_ids shop_ids mid e with
    | .skipped => st
    | .ability r => (st.1, st.2.1 ++ [r], st.2.2)
    | .item r => (st.1 ++ [r], st.2.1, st.2.2)
    | .unknown iid =>
        (st.1, st.2.1, if iid ∈ st.2.2 then st.2.2 else st.2.2 ++ [iid]))
    ([], [], [])

/-- bulk_create(..., ignore_conflicts=True) against a table with a
uniqueness constraint on `key_fn` (jobs.py lines 396-400 with models.py
uniq_playeritem_purchase / uniq_playerability_event): each batch row is
inserted unless a row with its key already exists; returns the new table
and the number of rows actually inserted. -/
def bulk_create_ignore {T K : Type} [DecidableEq K] (key_fn : T → K)
    (table : List T) : List T → List T × Nat
  | [] => (table, 0)
  | r :: rs =>
      if key_fn r ∈ table.map key_fn then bulk_create_ignore key_fn table rs
      else
        let p := bulk_create_ignore key_fn (table ++ [r]) rs
        (p.1, p.2 + 1)

/-- The PlayerItem/PlayerAbility/Account state the Match Events job writes. -/
structure EventsDb where
  accounts : List AccountRow
  items : List PlayerItemRow
  abilities : List PlayerAbilityRow
deriving Repr, DecidableEq

/-- The replace-mode deletion of a match's PlayerItem rows (jobs.py lines
323-324). -/
def replaced_items (replace : Bool) (mid : Int) (items : List PlayerItemRow) :
    List PlayerItemRow :=
  if replace then items.filter (fun r => r.match_id != mid) else items

/-- The replace-mode deletion of a match's PlayerAbility rows (jobs.py
lines 323-325). -/
def replaced_abilities (replace : Bool) (mid : Int)
    (abilities : List PlayerAbilityRow) : List PlayerAbilityRow :=
  if replace then abilities.filter (fun r => r.match_id != mid) else abilities

/-- items_to_create after the in-memory dedup (jobs.py lines 381-384). -/
def match_item_batch (ability_ids shop_ids : List Int) (mid : Int)
    (players : List PlayerMeta) : List PlayerItemRow :=
  dedupe_by_key
    (build_batches ability_ids shop_ids mid (extract_player_item_events players)).1
    item_key

/-- abilities_to_create after the in-memory dedup (jobs.py lines 385-388). -/
def match_ability_batch (ability_ids shop_ids : List Int) (mid : Int)
    (players : List PlayerMeta) : List PlayerAbilityRow :=
  dedupe_by_key
    (build_batches ability_ids shop_ids mid (extract_player_item_events players)).2.1
    ability_key

/-- MatchEventsResult dataclass (jobs.py lines 245-252). -/
structure MatchEventsResult where
  match_id : Int
  player_items_created : Nat
  player_abilities_created : Nat
  unknown_item_ids : Nat
  deduped_items : Nat
  deduped_abilities : Nat
deriving Repr, DecidableEq

/-- The per-match body of ingest_match_events (jobs.py lines 318-409):
extract events, reconcile accounts, optionally delete the match's existing
rows, classify, dedupe, bulk-insert with ignore_conflicts, and report
counts. player_items_created / player_abilities_created are the deduped
batch LENGTHS (items_after / abilities_after), computed before the insert. -/
def ingest_match_events_one (ability_ids shop_ids : List Int) (replace : Bool)
    (mid : Int) (players : List PlayerMeta) (db : EventsDb) :
    MatchEventsResult × EventsDb :=
  ({ match_id := mid,
     player_items_created := (match_item_batch ability_ids shop_ids mid players).length,
     player_abilities_created :=
       (match_ability_batch ability_ids shop_ids mid players).length,
     unknown_item_ids :=
       (build_batches ability_ids shop_ids mid
         (extract_player_item_events players)).2.2.length,
     deduped_items :=
       (build_batches ability_ids shop_ids mid
         (extract_player_item_events players)).1.length
         - (match_item_batch ability_ids shop_ids mid players).length,
     deduped_abilities :=
       (build_batches ability_ids shop_ids mid
         (extract_player_item_events players)).2.1.length
         - (match_ability_batch ability_ids shop_ids mid players).length },
   { accounts := ensure_accounts_exist db.accounts
       ((extract_player_item_events players).filterMap (fun e => e.account_id)),
     items := (bulk_create_ignore item_key (replaced_items replace mid db.items)
       (match_item_batch ability_ids shop_ids mid players)).1,
     abilities := (bulk_create_ignore ability_key
       (replaced_abilities replace mid db.abilities)
       (match_ability_batch ability_ids shop_ids mid players)).1 })

-- ------------------------------------------------------------
-- Lemmas about ignore-conflicts insertion and the dedup keys
-- ------------------------------------------------------------

theorem bulk_keys_mono {T K : Type} [DecidableEq K] (key_fn : T → K) (k : K) :
    ∀ (batch table : List T), k ∈ table.map key_fn →
      k ∈ ((bulk_create_ignore key_fn table batch).1).map key_fn := by
  intro batch
  induction batch with
  | nil => intro table h; simpa [bulk_create_ignore] using h
  | cons x xs ih =>
      intro table h
      by_cases hx : key_fn x ∈ table.map key_fn
      · simp only [bulk_create_ignore]
        rw [if_pos hx]
        exact ih table h
      · simp only [bulk_create_ignore]
        rw [if_neg hx]
        show k ∈ ((bulk_create_ignore key_fn (table ++ [x]) xs).1).map key_fn
        refine ih (table ++ [x]) ?_
        rw [List.map_append]
        exact List.mem_append_left _ h

theorem bulk_mem_after {T K : Type} [DecidableEq K] (key_fn : T → K) :
    ∀ (batch table : List T) (r : T), r ∈ batch →
      key_fn r ∈ ((bulk_create_ignore key_fn table batch).1).map key_fn := by
  intro batch
  induction batch with
  | nil => intro table r h; simp at h
  | cons x xs ih =>
      intro table r h
      rcases List.mem_cons.mp h with rfl | hm
      · by_cases hx : key_fn r ∈ table.map key_fn
        · simp only [bulk_create_ignore]
          rw [if_pos hx]
          exact bulk_keys_mono key_fn _ xs table hx
        · simp only [bulk_create_ignore]
          rw [if_neg hx]
          show key_fn r ∈ ((bulk_create_ignore key_fn (table ++ [r]) xs).1).map key_fn
          refine bulk_keys_mono key_fn _ xs (table ++ [r]) ?_
          rw [List.map_append]
          exact List.mem_append_right _ (by simp)
      · by_cases hx : key_fn x ∈ table.map key_fn
        · simp only [bulk_create_ignore]
          rw [if_pos hx]
          exact ih table r hm
        · simp only [bulk_create_ignore]
          rw [if_neg hx]
          show key_fn r ∈ ((bulk_create_ignore key_fn (table ++ [x]) xs).1).map key_fn
          exact ih (table ++ [x]) r hm

theorem bulk_skip_all {T K : Type} [DecidableEq K] (key_fn : T → K) :
    ∀ (batch table : List T), (∀ r ∈ batch, key_fn r ∈ table.map key_fn) →
      bulk_create_ignore key_fn table batch = (table, 0) := by
  intro batch
  induction batch with
  | nil => intro table _; rfl
  | cons x xs ih =>
      intro table h
      have hx := h x (by simp)
      simp only [bulk_create_ignore]
      rw [if_pos hx]
      exact ih table (fun r hr => h r (by simp [hr]))

/-- Re-inserting the same batch into the table it produced inserts nothing. -/
theorem bulk_insert_twice {T K : Type} [DecidableEq K] (key_fn : T → K)
    (batch table : List T) :
    bulk_create_ignore key_fn ((bulk_create_ignore key_fn table batch).1) batch
      = ((bulk_create_ignore key_fn table batch).1, 0) := by
  apply bulk_skip_all
  intro r hr
  exact bulk_mem_after key_fn batch table r hr

theorem bulk_fresh {T K : Type} [DecidableEq K] (key_fn : T → K) :
    ∀ (batch table : List T),
      (∀ r ∈ batch, key_fn r ∉ table.map key_fn) →
      (batch.map key_fn).Nodup →
      bulk_create_ignore key_fn table batch = (table ++ batch, batch.length) := by
  intro batch
  induction batch with
  | nil => intro table _ _; simp [bulk_create_ignore]
  | cons x xs ih =>
      intro table hfresh hnd
      have hx : key_fn x ∉ table.map key_fn := hfresh x (by simp)
      rw [List.map_cons, List.nodup_cons] at hnd
      simp only [bulk_create_ignore]
      rw [if_neg hx]
      have hstep : bulk_create_ignore key_fn (table ++ [x]) xs
          = ((table ++ [x]) ++ xs, xs.length) := by
        refine ih (table ++ [x]) ?_ hnd.2
        intro r hr
        rw [List.map_append]
        simp only [List.mem_append]
        rintro (hc | hc)
        · exact hfresh r (by simp [hr]) hc
        · simp only [List.map_cons, List.map_nil, List.mem_singleton] at hc
          exact hnd.1 (hc ▸ List.mem_map_of_mem key_fn hr)
      show ((bulk_create_ignore key_fn (table ++ [x]) xs).1,
            (bulk_create_ignore key_fn (table ++ [x]) xs).2 + 1)
          = (table ++ x :: xs, (x :: xs).length)
      rw [hstep]
      rw [List.append_assoc]
      rfl

theorem dedupe_go_keys_nodup {T K : Type} [DecidableEq K] (key_fn : T → K) :
    ∀ (rows : List T) (seen : List K),
      ((dedupe_go key_fn seen rows).map key_fn).Nodup ∧
      ∀ k ∈ (dedupe_go key_fn seen rows).map key_fn, k ∉ seen := by
  intro rows
  induction rows with
  | nil => intro seen; simp [dedupe_go]
  | cons r rs ih =>
      intro seen
      simp only [dedupe_go]
      by_cases h : key_fn r ∈ seen
      · rw [if_pos h]
        exact ih seen
      · rw [if_neg h]
        obtain ⟨h1, h2⟩ := ih (key_fn r :: seen)
        constructor
        · rw [List.map_cons, List.nodup_cons]
          exact ⟨fun hc => (h2 _ hc) (by simp), h1⟩
        · intro k hk
          rw [List.map_cons, List.mem_cons] at hk
          rcases hk with rfl | hk
          · exact h
          · intro hks
            exact (h2 k hk) (by simp [hks])

/-- The keys of a deduplicated batch are pairwise distinct. -/
theorem dedupe_keys_nodup {T K : Type} [DecidableEq K] (key_fn : T → K)
    (rows : List T) : ((dedupe_by_key rows key_fn).map key_fn).Nodup :=
  (dedupe_go_keys_nodup key_fn rows []).1

-- ------------------------------------------------------------
-- Match Events theorems (C2, C5, C7)
-- ------------------------------------------------------------

/-- C2 counterexample: with a PlayerItem row of the same uniqueness key
already stored, the job reports player_items_created = 1 while the insert
(ignore_conflicts) stores nothing: the table is unchanged and zero rows are
actually inserted, so the reported count does not equal what was committed. -/
theorem match_events_created_count_overstates_cex :
    (ingest_match_events_one [] [7] false 1
        [⟨some 10, [⟨some 7, some 5, none, none, none⟩]⟩]
        ⟨[⟨10, "u", false⟩], [⟨10, 1, 7, 5, 0, false, none⟩], []⟩).1.player_items_created
      = 1 ∧
    (ingest_match_events_one [] [7] false 1
        [⟨some 10, [⟨some 7, some 5, none, none, none⟩]⟩]
        ⟨[⟨10, "u", false⟩], [⟨10, 1, 7, 5, 0, false, none⟩], []⟩).2.items
      = [⟨10, 1, 7, 5, 0, false, none⟩] ∧
    (bulk_create_ignore item_key [⟨10, 1, 7, 5, 0, false, none⟩]
        (match_item_batch [] [7] 1
          [⟨some 10, [⟨some 7, some 5, none, none, none⟩]⟩])).2 = 0 :=
  ⟨rfl, rfl, rfl⟩

/-- C2 amended: the reported player_items_created / player_abilities_created
equal the deduplicated in-memory batch sizes; they equal the number of rows
actually inserted exactly when no batch key collides with a row surviving
in the table at insert time (always the case for the match's own rows under
replace=true, but not on a re-run with replace=false). -/
theorem match_events_created_counts_batch_sizes
    (ability_ids shop_ids : List Int) (replace : Bool) (mid : Int)
    (players : List PlayerMeta) (db : EventsDb) :
    (ingest_match_events_one ability_ids shop_ids replace mid players db).1.player_items_created
        = (match_item_batch ability_ids shop_ids mid players).length ∧
    (ingest_match_events_one ability_ids shop_ids replace mid players db).1.player_abilities_created
        = (match_ability_batch ability_ids shop_ids mid players).length ∧
    ((∀ r ∈ match_item_batch ability_ids shop_ids mid players,
        item_key r ∉ (replaced_items replace mid db.items).map item_key) →
      (ingest_match_events_one ability_ids shop_ids replace mid players db).2.items
        = replaced_items replace mid db.items
            ++ match_item_batch ability_ids shop_ids mid players) ∧
    ((∀ r ∈ match_ability_batch ability_ids shop_ids mid players,
        ability_key r ∉ (replaced_abilities replace mid db.abilities).map ability_key) →
      (ingest_match_events_one ability_ids shop_ids replace mid players db).2.abilities
        = replaced_abilities replace mid db.abilities
            ++ match_ability_batch ability_ids shop_ids mid players) := by
  refine ⟨rfl, rfl, ?_, ?_⟩
  · intro hfresh
    have hnd : ((match_item_batch ability_ids shop_ids mid players).map item_key).Nodup :=
      dedupe_keys_nodup item_key _
    show (bulk_create_ignore item_key (replaced_items replace mid db.items)
        (match_item_batch ability_ids shop_ids mid players)).1 = _
    rw [bulk_fresh item_key _ _ hfresh hnd]
  · intro hfresh
    have hnd : ((match_ability_batch ability_ids shop_ids mid players).map ability_key).Nodup :=
      dedupe_keys_nodup ability_key _
    show (bulk_create_ignore ability_key (replaced_abilities replace mid db.abilities)
        (match_ability_batch ability_ids shop_ids mid players)).1 = _
    rw [bulk_fresh ability_key _ _ hfresh hnd]

theorem match_events_created_counts_witness :
    (ingest_match_events_one [] [7] false 1
        [⟨some 10, [⟨some 7, some 5, none, none, none⟩]⟩]
        (⟨[], [], []⟩ : EventsDb)).2.items
      = replaced_items false 1 []
          ++ match_item_batch [] [7] 1
              [⟨some 10, [⟨some 7, some 5, none, none, none⟩]⟩] :=
  (match_events_created_counts_batch_sizes [] [7] false 1
      [⟨some 10, [⟨some 7, some 5, none, none, none⟩]⟩] ⟨[], [], []⟩).2.2.1
    (by decide)

/-- C5: re-running the Match Events job on the same match with the same
payload and replace=false leaves the PlayerItem and PlayerAbility tables
exactly as after the first run, and the second run's ignore-conflicts
inserts store zero rows. -/
theorem match_events_idempotent (ability_ids shop_ids : List Int) (mid : Int)
    (players : List PlayerMeta) (db : EventsDb) :
    ((ingest_match_events_one ability_ids shop_ids false mid players
        ((ingest_match_events_one ability_ids shop_ids false mid players db).2)).2).items
      = ((ingest_match_events_one ability_ids shop_ids false mid players db).2).items ∧
    ((ingest_match_events_one ability_ids shop_ids false mid players
        ((ingest_match_events_one ability_ids shop_ids false mid players db).2)).2).abilities
      = ((ingest_match_events_one ability_ids shop_ids false mid players db).2).abilities ∧
    (bulk_create_ignore item_key
        ((ingest_match_events_one ability_ids shop_ids false mid players db).2).items
        (match_item_batch ability_ids shop_ids mid players)).2 = 0 ∧
    (bulk_create_ignore ability_key
        ((ingest_match_events_one ability_ids shop_ids false mid players db).2).abilities
        (match_ability_batch ability_ids shop_ids mid players)).2 = 0 := by
  refine ⟨?_, ?_, ?_, ?_⟩
  · show (bulk_create_ignore item_key
        ((bulk_create_ignore item_key db.items
          (match_item_batch ability_ids shop_ids mid players)).1)
        (match_item_batch ability_ids shop_ids mid players)).1
      = (bulk_create_ignore item_key db.items
          (match_item_batch ability_ids shop_ids mid players)).1
    rw [bulk_insert_twice]
  · show (bulk_create_ignore ability_key
        ((bulk_create_ignore ability_key db.abilities
          (match_ability_batch ability_ids shop_ids mid players)).1)
        (match_ability_batch ability_ids shop_ids mid players)).1
      = (bulk_create_ignore ability_key db.abilities
          (match_ability_batch ability_ids shop_ids mid players)).1
    rw [bulk_insert_twice]
  · show (bulk_create_ignore item_key
        ((bulk_create_ignore item_key db.items
          (match_item_batch ability_ids shop_ids mid players)).1)
        (match_item_batch ability_ids shop_ids mid players)).2 = 0
    rw [bulk_insert_twice]
  · show (bulk_create_ignore ability_key
        ((bulk_create_ignore ability_key db.abilities
          (match_ability_batch ability_ids shop_ids mid players)).1)
        (match_ability_batch ability_ids shop_ids mid players)).2 = 0
    rw [bulk_insert_twice]

/-- C7 counterexample: an event whose account_id is missing is skipped with
NONE of the three claimed outcomes (no ability row, no item row, not
counted unknown), so "exactly one of three outcomes for all events" fails. -/
theorem classify_missing_fields_no_outcome_cex :
    classify_event [] [] 1 ⟨none, some 5, none, none, none, none⟩
      = EventOutcome.skipped ∧
    (∀ r, EventOutcome.skipped ≠ EventOutcome.ability r) ∧
    (∀ r, EventOutcome.skipped ≠ EventOutcome.item r) ∧
    (∀ i, EventOutcome.skipped ≠ EventOutcome.unknown i) := by
  refine ⟨rfl, ?_, ?_, ?_⟩ <;> intro x h <;> exact EventOutcome.noConfusion h

/-- C7 amended: for every event carrying both an account_id and an item_id,
exactly one of the three outcomes holds: an ability row is built, an item
row is built, or the item_id is classified unknown; events missing either
field are skipped with none of the three. -/
theorem classify_event_of_some (ability_ids shop_ids : List Int)
    (mid : Int) (e : ItemEvent) (aid iid : Int)
    (h1 : e.account_id = some aid) (h2 : e.item_id = some iid) :
    classify_event ability_ids shop_ids mid e
      = (if iid ∈ ability_ids then
           EventOutcome.ability ⟨aid, mid, iid, e.game_time_s.getD 0⟩
         else if iid ∈ shop_ids then
           EventOutcome.item ⟨aid, mid, iid, e.game_time_s.getD 0,
             e.sold_time_s.getD 0, decide (e.upgrade_id.getD 0 ≠ 0),
             if e.imbued_ability_id.getD 0 ∈ ability_ids then
               some (e.imbued_ability_id.getD 0) else none⟩
         else EventOutcome.unknown iid) := by
  unfold classify_event
  rw [h1, h2]

theorem classify_exactly_one_outcome (ability_ids shop_ids : List Int)
    (mid : Int) (e : ItemEvent) (aid iid : Int)
    (h1 : e.account_id = some aid) (h2 : e.item_id = some iid) :
    ((∃ r, classify_event ability_ids shop_ids mid e = EventOutcome.ability r) ∨
     (∃ r, classify_event ability_ids shop_ids mid e = EventOutcome.item r) ∨
     (∃ i, classify_event ability_ids shop_ids mid e = EventOutcome.unknown i)) ∧
    ¬ ((∃ r, classify_event ability_ids shop_ids mid e = EventOutcome.ability r) ∧
       (∃ r, classify_event ability_ids shop_ids mid e = EventOutcome.item r)) ∧
    ¬ ((∃ r, classify_event ability_ids shop_ids mid e = EventOutcome.ability r) ∧
       (∃ i, classify_event ability_ids shop_ids mid e = EventOutcome.unknown i)) ∧
    ¬ ((∃ r, classify_event ability_ids shop_ids mid e = EventOutcome.item r) ∧
       (∃ i, classify_event ability_ids shop_ids mid e = EventOutcome.unknown i)) := by
  rw [classify_event_of_some ability_ids shop_ids mid e aid iid h1 h2]
  by_cases ha : iid ∈ ability_ids
  · rw [if_pos ha]
    refine ⟨Or.inl ⟨_, rfl⟩, ?_, ?_, ?_⟩ <;> rintro ⟨⟨r1, e1⟩, ⟨r2, e2⟩⟩ <;>
      exact EventOutcome.noConfusion (e1 ▸ e2)
  · rw [if_neg ha]
    by_cases hs : iid ∈ shop_ids
    · rw [if_pos hs]
      refine ⟨Or.inr (Or.inl ⟨_, rfl⟩), ?_, ?_, ?_⟩ <;> rintro ⟨⟨r1, e1⟩, ⟨r2, e2⟩⟩ <;>
        exact EventOutcome.noConfusion (e1 ▸ e2)
    · rw [if_neg hs]
      refine ⟨Or.inr (Or.inr ⟨_, rfl⟩), ?_, ?_, ?_⟩ <;> rintro ⟨⟨r1, e1⟩, ⟨r2, e2⟩⟩ <;>
        exact EventOutcome.noConfusion (e1 ▸ e2)

theorem classify_exactly_one_outcome_witness :
    ((∃ r, classify_event [2] [] 1 ⟨some 1, some 2, some 3, none, none, none⟩
        = EventOutcome.ability r) ∨
     (∃ r, classify_event [2] [] 1 ⟨some 1, some 2, some 3, none, none, none⟩
        = EventOutcome.item r) ∨
     (∃ i, classify_event [2] [] 1 ⟨some 1, some 2, some 3, none, none, none⟩
        = EventOutcome.unknown i)) ∧
    ¬ ((∃ r, classify_event [2] [] 1 ⟨some 1, some 2, some 3, none, none, none⟩
        = EventOutcome.ability r) ∧
       (∃ r, classify_event [2] [] 1 ⟨some 1, some 2, some 3, none, none, none⟩
        = EventOutcome.item r)) ∧
    ¬ ((∃ r, classify_event [2] [] 1 ⟨some 1, some 2, some 3, none, none, none⟩
        = EventOutcome.ability r) ∧
       (∃ i, classify_event [2] [] 1 ⟨some 1, some 2, some 3, none, none, none⟩
        = EventOutcome.unknown i)) ∧
    ¬ ((∃ r, classify_event [2] [] 1 ⟨some 1, some 2, some 3, none, none, none⟩
        = EventOutcome.item r) ∧
       (∃ i, classify_event [2] [] 1 ⟨some 1, some 2, some 3, none, none, none⟩
        = EventOutcome.unknown i)) :=
  classify_exactly_one_outcome [2] [] 1 ⟨some 1, some 2, some 3, none, none, none⟩
    1 2 rfl rfl

-- ------------------------------------------------------------
-- Resilient HTTP client (client.py lines 28-62)
-- ------------------------------------------------------------

/-- What one attempt of session.get + body parse can produce: a response
with a status code and a json body that parses or not, or a transport-level
exception. -/
inductive AttemptResult
  | response (status : Nat) (json_ok : Bool)
  | net_error
deriving Repr, DecidableEq

/-- The statuses treated as transient (client.py line 46). -/
def transient_statuses : List Nat := [429, 500, 502, 503, 504]

/-- The terminal RuntimeError of _get (client.py lines 59-62): it reports
the attempt budget and the last observed HTTP status. -/
structure GetError where
  retries : Nat
  last_status : Option Nat
deriving Repr, DecidableEq

/-- What a call to _get did: how many requests were issued, the sleeps
performed in order (in sleep_s units x attempt number, or one plain
sleep_s pacing delay after success), and the outcome. -/
structure GetTrace where
  attempts : Nat
  sleeps : List Int
  result : Except GetError Unit
deriving Repr

/-- The retry loop of _get (client.py lines 34-57): attempt indices count
from 1; a transient status sleeps sleep_s * attempt and retries; any other
non-2xx status (raise_for_status), a transport error or a body-parse error
lands in the except branch, which also sleeps sleep_s * attempt and
retries; a 2xx with a parsed body sleeps the fixed pacing delay and
returns. `remaining` is the number of loop iterations left. -/
def get_go (sleep_s : Int) (max_retries : Nat) (resp : Nat → AttemptResult) :
    Nat → Nat → Option Nat → List Int → GetTrace
  | 0, attempt, last_status, sleeps =>
      { attempts := attempt - 1, sleeps := sleeps,
        result := Except.error { retries := max_retries, last_status := last_status } }
  | remaining + 1, attempt, last_status, sleeps =>
      match resp attempt with
      | .net_error =>
          get_go sleep_s max_retries resp remaining (attempt + 1) last_status
            (sleeps ++ [sleep_s * (attempt : Int)])
      | .response status json_ok =>
          if status ∈ transient_statuses then
            get_go sleep_s max_retries resp remaining (attempt + 1) (some status)
              (sleeps ++ [sleep_s * (attempt : Int)])
          else if 400 ≤ status then
            get_go sleep_s max_retries resp remaining (attempt + 1) (some status)
              (sleeps ++ [sleep_s * (attempt : Int)])
          else if json_ok then
            { attempts := attempt, sleeps := sleeps ++ [sleep_s],
              result := Except.ok () }
          else
            get_go sleep_s max_retries resp remaining (attempt + 1) (some status)
              (sleeps ++ [sleep_s * (attempt : Int)])

/-- DeadlockApiClient._get (client.py lines 28-62): up to max_retries
attempts against the per-attempt oracle `resp`. -/
def client_get (sleep_s : Int) (max_retries : Nat)
    (resp : Nat → AttemptResult) : GetTrace :=
  get_go sleep_s max_retries resp max_retries 1 none []

/-- C6: with max_retries = 3 and every request answered 503, the client
issues exactly 3 attempts (never a fourth), sleeps sleep_s x attempt
number after each failed attempt (so sleep_s and 2 x sleep_s between
attempts), never returns a payload, and fails with the terminal error
whose last status is 503. -/
theorem client_503_exhausts_three_attempts (s : Int) :
    client_get s 3 (fun _ => AttemptResult.response 503 true)
      = { attempts := 3, sleeps := [s * 1, s * 2, s * 3],
          result := Except.error { retries := 3, last_status := some 503 } } := by
  show get_go s 3 (fun _ => AttemptResult.response 503 true) 3 1 none [] = _
  have h503 : (503 : Nat) ∈ transient_statuses := by decide
  rw [get_go]
  simp only [if_pos h503]
  rw [get_go]
  simp only [if_pos h503]
  rw [get_go]
  simp only [if_pos h503]
  rw [get_go]
  norm_num

-- ------------------------------------------------------------
-- Match History job (jobs.py lines 149-239)
-- ------------------------------------------------------------

/-- _epoch_to_dt_utc (jobs.py lines 19-21): an aware UTC datetime is
modelled by its epoch seconds, so the conversion is the identity. -/
def epoch_to_dt_utc (epoch_s : Int) : Int := epoch_s

/-- One entry of the /v1/players/<id>/match-history payload (jobs.py lines
50-58 and 194-235). -/
structure HistoryEntry where
  match_id : Int
  start_time : Int
  match_duration_s : Int
  player_kills : Int
  player_deaths : Int
  player_assists : Int
  net_worth : Int
  player_team : Int
  match_result : Int
deriving Repr, DecidableEq

/-- The entry filtering of ingest_player_match_history (jobs.py lines
176-182): when a cutoff instant is set, keep only entries whose start time
is at or after it; then, when a cap is set, keep the first N of what
remains. -/
def select_history_entries (cutoff_dt : Option Int) (cap : Option Nat)
    (entries : List HistoryEntry) : List HistoryEntry :=
  let entries2 := match cutoff_dt with
    | some c => entries.filter (fun e => decide (c ≤ epoch_to_dt_utc e.start_time))
    | none => entries
  match cap with
  | some n => entries2.take n
  | none => entries2

/-- The Match/PlayerPerformance/Account state the Match History job writes. -/
structure HistoryDb where
  accounts : List AccountRow
  match_rows : List MatchRow
  performances : List PerfRow
deriving Repr, DecidableEq

/-- Match.objects.update_or_create (jobs.py lines 205-208): refresh date and
duration of an existing row, or insert; the flag is match_created. -/
def match_update_or_create (tbl : List MatchRow) (mid date dur : Int) :
    List MatchRow × Bool :=
  if (tbl.find? (fun m => m.match_id == mid)).isSome then
    (tbl.map (fun m => if m.match_id == mid then ⟨mid, date, dur⟩ else m), false)
  else (tbl ++ [⟨mid, date, dur⟩], true)

/-- PlayerPerformance.objects.update_or_create keyed on (account, match)
(jobs.py lines 224-235). -/
def perf_update_or_create (tbl : List PerfRow) (row : PerfRow) : List PerfRow :=
  if (tbl.find? (fun p => p.account_id == row.account_id
      && p.match_id == row.match_id)).isSome then
    tbl.map (fun p =>
      if p.account_id == row.account_id && p.match_id == row.match_id then row else p)
  else tbl ++ [row]

/-- The per-entry body of the history loop (jobs.py lines 194-235): upsert
Match (counted as created or updated) then upsert PlayerPerformance with
is_win derived as team == match_result. -/
def process_history_entry (aid : Int) (st : HistoryDb × Nat × Nat)
    (e : HistoryEntry) : HistoryDb × Nat × Nat :=
  let m := match_update_or_create st.1.match_rows e.match_id
    (epoch_to_dt_utc e.start_time) e.match_duration_s
  let perfs := perf_update_or_create st.1.performances
    ⟨aid, e.match_id, e.player_kills, e.player_deaths, e.player_assists,
     e.net_worth, e.player_team, e.player_team == e.match_result⟩
  ({ st.1 with match_rows := m.1, performances := perfs },
   (if m.2 then st.2.1 + 1 else st.2.1),
   (if m.2 then st.2.2 else st.2.2 + 1))

/-- The per-account body of ingest_player_match_history (jobs.py lines
172-237): filter/cap the fetched entries, ensure the Account row exists
(username upsert), then process each surviving entry. -/
def process_account_history (cutoff_dt : Option Int) (cap : Option Nat)
    (aid : Int) (entries : List HistoryEntry) (db : HistoryDb) :
    IngestResult × HistoryDb :=
  let entries2 := select_history_entries cutoff_dt cap entries
  let db1 : HistoryDb :=
    { db with accounts := account_update_or_create_username db.accounts aid }
  let st := entries2.foldl (process_history_entry aid) (db1, 0, 0)
  (⟨st.2.1, st.2.2⟩, st.1)

/-- The account loop of ingest_player_match_history, once the cutoff is
fixed: one result per account, threading the store. -/
def history_job_go (cutoff_dt : Option Int) (cap : Option Nat) :
    List (Int × List HistoryEntry) → HistoryDb →
    List (Int × IngestResult) × HistoryDb
  | [], db => ([], db)
  | (aid, entries) :: rest, db =>
      let r := process_account_history cutoff_dt cap aid entries db
      let others := history_job_go cutoff_dt cap rest r.2
      ((aid, r.1) :: others.1, others.2)

/-- ingest_player_match_history (jobs.py lines 149-239). `clock k` is the
instant django.utils.timezone.now() would return on its k-th call (counted
from 0); the code calls now() exactly once, before the account loop, and
only when since_days is set, so only clock 0 is ever read. `histories`
pairs each requested account id with the entries its history fetch
returned. -/
def ingest_player_match_history (clock : Nat → Int) (since_days : Option Int)
    (cap : Option Nat) (histories : List (Int × List HistoryEntry))
    (db : HistoryDb) : List (Int × IngestResult) × HistoryDb :=
  history_job_go (since_days.map (fun d => clock 0 - 86400 * d)) cap histories db

/-- C9: the since-days cutoff is the single job-start clock reading minus
86400 x d — computed once per invocation and shared by every account (a
clock agreeing at call 0 gives the identical run), and each account's
entries are first filtered to start_time at-or-after the cutoff and only
then capped to the first N survivors. -/
theorem history_cutoff_once_filter_then_cap (clock clock2 : Nat → Int)
    (d : Int) (cap : Option Nat) (histories : List (Int × List HistoryEntry))
    (db : HistoryDb) (t : Int) (n : Nat) (entries : List HistoryEntry) :
    ingest_player_match_history clock (some d) cap histories db
      = history_job_go (some (clock 0 - 86400 * d)) cap histories db ∧
    (clock2 0 = clock 0 →
      ingest_player_match_history clock2 (some d) cap histories db
        = ingest_player_match_history clock (some d) cap histories db) ∧
    select_history_entries (some t) (some n) entries
      = (entries.filter (fun e => decide (t ≤ epoch_to_dt_utc e.start_time))).take n := by
  refine ⟨rfl, ?_, rfl⟩
  intro h
  unfold ingest_player_match_history
  rw [h]

theorem history_cutoff_once_witness :
    ingest_player_match_history (fun k => if k == 0 then (0 : Int) else 99)
        (some 1) none [] ⟨[], [], []⟩
      = ingest_player_match_history (fun _ => (0 : Int)) (some 1) none []
          ⟨[], [], []⟩ :=
  (history_cutoff_once_filter_then_cap (fun _ => (0 : Int))
      (fun k => if k == 0 then (0 : Int) else 99) 1 none [] ⟨[], [], []⟩
      0 0 []).2.1 rfl

-- ------------------------------------------------------------
-- Transaction boundaries (C3)
-- ------------------------------------------------------------

/-- The database writes one match of ingest_match_events issues (jobs.py
lines 320-400). -/
inductive EventsWrite
  | create_accounts (aids : List Int)
  | delete_items (mid : Int)
  | delete_abilities (mid : Int)
  | insert_items (rows : List PlayerItemRow)
  | insert_abilities (rows : List PlayerAbilityRow)
deriving Repr, DecidableEq

/-- The database writes one account of ingest_player_match_history issues
(jobs.py lines 186-235). -/
inductive HistoryWrite
  | upsert_account (aid : Int)
  | upsert_match (mid date dur : Int)
  | upsert_performance (aid mid : Int)
deriving Repr, DecidableEq

/-- The effect of one EventsWrite on the store. -/
def apply_events_write (db : EventsDb) : EventsWrite → EventsDb
  | .create_accounts aids =>
      { db with accounts := ensure_accounts_exist db.accounts aids }
  | .delete_items mid =>
      { db with items := db.items.filter (fun r => r.match_id != mid) }
  | .delete_abilities mid =>
      { db with abilities := db.abilities.filter (fun r => r.match_id != mid) }
  | .insert_items rows =>
      { db with items := (bulk_create_ignore item_key db.items rows).1 }
  | .insert_abilities rows =>
      { db with abilities := (bulk_create_ignore ability_key db.abilities rows).1 }

/-- The transaction grouping of one match of ingest_match_events, as the
code orders it: _ensure_accounts_exist runs in autocommit (jobs.py line
320); under replace, the two deletes each run as their own autocommit
statement (lines 323-325, OUTSIDE any transaction.atomic block); the
transaction.atomic block (lines 396-400) holds only the two conditional
bulk inserts. Each inner list is one transaction. -/
def match_events_txn_script (replace : Bool) (mid : Int) (aids : List Int)
    (items_batch : List PlayerItemRow)
    (abilities_batch : List PlayerAbilityRow) : List (List EventsWrite) :=
  [[EventsWrite.create_accounts aids]]
    ++ (if replace then [[EventsWrite.delete_items mid],
                         [EventsWrite.delete_abilities mid]] else [])
    ++ [(if items_batch.isEmpty then [] else [EventsWrite.insert_items items_batch])
        ++ (if abilities_batch.isEmpty then []
            else [EventsWrite.insert_abilities abilities_batch])]

/-- The transaction grouping of one account of ingest_player_match_history:
the Account upsert (jobs.py lines 188-191) runs in autocommit BEFORE the
transaction.atomic block (lines 193-235) that holds every Match and
PlayerPerformance upsert of the unit. -/
def match_history_txn_script (aid : Int) (entries : List HistoryEntry) :
    List (List HistoryWrite) :=
  [[HistoryWrite.upsert_account aid],
   entries.flatMap (fun e =>
     [HistoryWrite.upsert_match e.match_id (epoch_to_dt_utc e.start_time)
        e.match_duration_s,
      HistoryWrite.upsert_performance aid e.match_id])]

/-- Run a list of transactions in order: transaction i applies atomically
when fails i = false; the first failing transaction rolls back (the state
is unchanged) and, as the exception propagates, nothing later in the unit
runs. -/
def run_txns_go {St Op : Type} (apply_op : St → Op → St) (fails : Nat → Bool) :
    Nat → St → List (List Op) → St
  | _, db, [] => db
  | i, db, t :: rest =>
      if fails i then db
      else run_txns_go apply_op fails (i + 1) (t.foldl apply_op db) rest

def run_txns {St Op : Type} (apply_op : St → Op → St) (fails : Nat → Bool)
    (db : St) (script : List (List Op)) : St :=
  run_txns_go apply_op fails 0 db script

/-- C3 counterexample: one stored PlayerItem row for match 1, replace=true,
and the insert transaction (index 3) failing: the deletions have already
committed in their own transactions, so the final items table is empty —
neither the no-write state (the old row) nor the all-writes state (the new
row). Deletion and insertion do NOT commit or roll back together. -/
theorem replace_delete_commits_without_insert_cex :
    (run_txns apply_events_write (fun i => i == 3)
        ⟨[⟨10, "u", false⟩], [⟨10, 1, 7, 5, 0, false, none⟩], []⟩
        (match_events_txn_script true 1 [10] [⟨10, 1, 7, 9, 0, false, none⟩] [])).items
      = [] ∧
    (run_txns apply_events_write (fun _ => false)
        ⟨[⟨10, "u", false⟩], [⟨10, 1, 7, 5, 0, false, none⟩], []⟩
        (match_events_txn_script true 1 [10] [⟨10, 1, 7, 9, 0, false, none⟩] [])).items
      = [⟨10, 1, 7, 9, 0, false, none⟩] :=
  ⟨rfl, rfl⟩

/-- C3 amended: within one match of the Events job only the two bulk
inserts share a transaction — the account reconciliation and (under
replace) each deletion commit in transactions of their own before it, so a
failure of the insert transaction leaves the deletions committed; within
one account of the History job every Match/PlayerPerformance upsert shares
one transaction, but the Account upsert precedes it in autocommit. -/
theorem txn_scripts_grouping (db : EventsDb) (mid : Int) (aids : List Int)
    (bi : List PlayerItemRow) (ba : List PlayerAbilityRow) (aid : Int)
    (entries : List HistoryEntry) :
    run_txns apply_events_write (fun i => i == 3) db
        (match_events_txn_script true mid aids bi ba)
      = { accounts := ensure_accounts_exist db.accounts aids,
          items := db.items.filter (fun r => r.match_id != mid),
          abilities := db.abilities.filter (fun r => r.match_id != mid) } ∧
    run_txns apply_events_write (fun _ => false) db
        (match_events_txn_script true mid aids bi ba)
      = { accounts := ensure_accounts_exist db.accounts aids,
          items := (bulk_create_ignore item_key
            (db.items.filter (fun r => r.match_id != mid)) bi).1,
          abilities := (bulk_create_ignore ability_key
            (db.abilities.filter (fun r => r.match_id != mid)) ba).1 } ∧
    match_history_txn_script aid entries
      = [[HistoryWrite.upsert_account aid],
         entries.flatMap (fun e =>
           [HistoryWrite.upsert_match e.match_id (epoch_to_dt_utc e.start_time)
              e.match_duration_s,
            HistoryWrite.upsert_performance aid e.match_id])] := by
  refine ⟨rfl, ?_, rfl⟩
  cases bi <;> cases ba <;> rfl
